import Mathlib

/-
Verification development for the honeypot AI analysis engine
(backend/ai-engine: analyer.py, classifier.py, anamoly_detector.py,
adaptation_engine.py).

The Python modules are shallowly embedded: dictionaries become
association lists (iteration order = insertion order, as for Python
dicts), pandas value_counts becomes an explicit stable descending
count table, floats become rationals, and wall-clock data (hash ids,
datetime.now timestamps, free-text description strings) is dropped
since it carries no logic.  Regular expressions in the signature
tables are all concatenations of literal chunks separated by `.*`;
re.search with such a pattern succeeds exactly when the chunks occur
in the text in order without overlap, which is what seqMatch decides
(greedy leftmost matching is complete for this pattern class).
-/

set_option maxHeartbeats 1000000

namespace Honeypot

/-! ## Generic list helpers (Python dict / pandas modelling) -/

/-- Keys in first-occurrence order, i.e. Python dict insertion order. -/
def firstSeenAux {α : Type} [DecidableEq α] (seen : List α) : List α → List α
  | [] => []
  | a :: rest =>
      if a ∈ seen then firstSeenAux seen rest
      else a :: firstSeenAux (a :: seen) rest

def firstSeen {α : Type} [DecidableEq α] (l : List α) : List α :=
  firstSeenAux [] l

/-- Number of occurrences of a value in a list. -/
def countVal {α : Type} [DecidableEq α] (l : List α) (a : α) : Nat :=
  (l.filter (fun x => x = a)).length

/-- Stable descending insertion by count (second component). -/
def insertCountDesc {α : Type} (p : α × Nat) : List (α × Nat) → List (α × Nat)
  | [] => [p]
  | q :: rest => if q.2 < p.2 then p :: q :: rest else q :: insertCountDesc p rest

/-- pandas Series.value_counts(): pairs (value, multiplicity), counts
descending, ties kept in first-seen order (stable). -/
def valueCounts {α : Type} [DecidableEq α] (l : List α) : List (α × Nat) :=
  ((firstSeen l).map (fun a => (a, countVal l a))).foldl
    (fun acc p => insertCountDesc p acc) []

/-- Association-list lookup with decidable key equality. -/
def alookup {α β : Type} [DecidableEq α] (l : List (α × β)) (a : α) : Option β :=
  match l with
  | [] => none
  | p :: rest => if p.1 = a then some p.2 else alookup rest a

/-! ## Data model -/

/-- One honeypot interaction record; mirrors the JSON log entries,
where any field may be absent. -/
structure Event where
  src_ip : Option String
  dst_port : Option Nat
  protocol : Option String
  message : Option String
  timestamp : Option ℚ
  deriving DecidableEq, Repr

structure TimeRange where
  tstart : ℚ
  tend : ℚ
  duration_minutes : ℚ
  deriving DecidableEq, Repr

/-- Per-source pattern summary inside the FeatureSet
(analyer.py `_extract_features`, `features['patterns']`). -/
structure PatternData where
  is_known_malicious : Bool
  frequency : Nat
  ports_targeted : Nat
  deriving DecidableEq, Repr

/-- FeatureSet (analyer.py `_extract_features`). The
protocol-distribution table is omitted: no downstream consumer or
claim reads it. -/
structure Features where
  total_events : Nat
  unique_ips : Nat
  unique_ports : Nat
  time_range : Option TimeRange
  ip_frequency : List (String × Nat)
  port_frequency : List (Nat × Nat)
  patterns : List (String × PatternData)
  deriving DecidableEq, Repr

/-- The demo known-malicious source set (analyer.py `_initialize_models`). -/
def known_malicious_ips : List String :=
  ["192.168.1.100", "10.0.0.50", "172.16.0.10"]

/-- analyer.py `_extract_features`: batch of events to FeatureSet.
Column presence / NaN handling of the pandas DataFrame is modelled by
filterMap over the optional fields. -/
def extract_features (known : List String) (logs : List Event) : Features :=
  let srcs := logs.filterMap (fun e => e.src_ip)
  let ports := logs.filterMap (fun e => e.dst_port)
  let times := logs.filterMap (fun e => e.timestamp)
  let ipFreq := (valueCounts srcs).take 10
  { total_events := logs.length
    unique_ips := (firstSeen srcs).length
    unique_ports := (firstSeen ports).length
    time_range :=
      match times with
      | [] => none
      | t :: ts =>
          let tmin := ts.foldl min t
          let tmax := ts.foldl max t
          some ⟨tmin, tmax, (tmax - tmin) / 60⟩
    ip_frequency := ipFreq
    port_frequency := (valueCounts ports).take 10
    patterns := ipFreq.map (fun p =>
      (p.1,
        { is_known_malicious := p.1 ∈ known
          frequency := p.2
          ports_targeted :=
            (firstSeen ((logs.filter (fun e => e.src_ip = some p.1)).filterMap
              (fun e => e.dst_port))).length })) }

/-! ## classifier.py: AttackClassifier -/

/-- classifier.py result record (matched_patterns and indicators are
dropped: no claim reads them). -/
structure ClassResult where
  attack_type : String
  confidence : ℚ
  method : String
  deriving DecidableEq

/-- Suffix of the text after the first occurrence of a literal chunk,
or none when the chunk never occurs. -/
def chunkDrop (pat : List Char) : List Char → Option (List Char)
  | [] => if pat.isEmpty then some [] else none
  | c :: rest =>
      if pat.isPrefixOf (c :: rest) then some ((c :: rest).drop pat.length)
      else chunkDrop pat rest

/-- re.search for a `.*`-separated sequence of literal chunks: the
chunks must occur in order, without overlap. -/
def seqMatch : List (List Char) → List Char → Bool
  | [], _ => true
  | p :: ps, s =>
      match chunkDrop p s with
      | none => false
      | some rest => seqMatch ps rest

def pmatch (chunks : List String) (msg : List Char) : Bool :=
  seqMatch (chunks.map String.toList) msg

def lowerChars (s : String) : List Char :=
  s.toList.map Char.toLower

/-- Number of signature patterns of one attack kind matching the message. -/
def mcount (patterns : List (List String)) (msg : List Char) : Nat :=
  (patterns.filter (fun p => pmatch p msg)).length

/-- classifier.py `attack_signatures['brute_force']['patterns']`,
each regex split at `.*` into lowercased literal chunks. -/
def brute_force_patterns : List (List String) :=
  [["failed password for", "from", "port"],
   ["authentication failure", "rhost="],
   ["invalid user", "from"],
   ["failed login attempt"]]

def port_scan_patterns : List (List String) :=
  [["connection attempt", "refused"],
   ["syn flood detected"],
   ["port scan detected"],
   ["multiple connection attempts"]]

def web_attack_patterns : List (List String) :=
  [["get", "../.."],
   ["select", "from", "where"],
   ["<script", ">", "</script>"],
   ["union", "select"],
   ["eval("],
   ["cmd=", "&"]]

def ddos_patterns : List (List String) :=
  [["syn flood"], ["udp flood"], ["connection flood"], ["rate limit exceeded"]]

def malware_patterns : List (List String) :=
  [["known malware signature"], ["suspicious file upload"],
   ["backdoor detected"], ["trojan activity"]]

/-- classifier.py `attack_signatures`, in Python dict insertion order. -/
def attack_signatures : List (String × List (List String)) :=
  [("brute_force", brute_force_patterns),
   ("port_scan", port_scan_patterns),
   ("web_attack", web_attack_patterns),
   ("ddos", ddos_patterns),
   ("malware", malware_patterns)]

/-- One iteration of the `_rule_based_classification` loop: count
message-pattern matches of one attack kind; on at least one match,
compute min(0.9, matched/total + 0.3), add the kind-specific port
boost, clamp to 1, and keep the kind when its confidence strictly
beats the accumulator (so ties keep the earlier kind). -/
def ruleStep (msg : List Char) (port : Nat) (acc : String × ℚ)
    (sig : String × List (List String)) : String × ℚ :=
  let patterns_matched := mcount sig.2 msg
  if 0 < patterns_matched then
    let confidence : ℚ :=
      min (9/10) ((patterns_matched : ℚ) / (sig.2.length : ℚ) + 3/10)
    let confidence2 :=
      if sig.1 = "web_attack" ∧ port ∈ [80, 443, 8080] then confidence + 1/10
      else if sig.1 = "brute_force" ∧ port ∈ [22, 21, 3389] then confidence + 1/10
      else if sig.1 = "port_scan" ∧ 1 ≤ port ∧ port < 1024 then confidence + 1/20
      else confidence
    let confidence3 := min 1 confidence2
    if acc.2 < confidence3 then (sig.1, confidence3) else acc
  else acc

/-- classifier.py `_rule_based_classification`. -/
def rule_based_classification (e : Event) : ClassResult :=
  let message := lowerChars (e.message.getD "")
  let dst_port := e.dst_port.getD 0
  let r := attack_signatures.foldl (ruleStep message dst_port) ("normal", 0)
  ⟨r.1, r.2, "rule_based"⟩

/-- Per-kind rule confidence, written from the spec (§ rule stage):
zero when no pattern of the kind matches the message, otherwise
min(0.9, matched/total_for_kind + 0.3) plus the kind-specific port
boost, clamped to 1. Spec-side definition, to be compared with
`rule_based_classification`. -/
def kindConfidence (kind : String) (patterns : List (List String)) (msg : List Char)
    (port : Nat) : ℚ :=
  let m := mcount patterns msg
  if m = 0 then 0
  else
    let base := min (9/10) ((m : ℚ) / (patterns.length : ℚ) + 3/10)
    let boost : ℚ :=
      if kind = "web_attack" ∧ port ∈ [80, 443, 8080] then 1/10
      else if kind = "brute_force" ∧ port ∈ [22, 21, 3389] then 1/10
      else if kind = "port_scan" ∧ 1 ≤ port ∧ port < 1024 then 1/20
      else 0
    min 1 (base + boost)

/-- Spec-side winner: the leftmost entry attaining the maximal
positive confidence, or ("normal", 0) when no entry is positive. -/
def bestOf : List (String × ℚ) → String × ℚ
  | [] => ("normal", 0)
  | p :: rest =>
      let b := bestOf rest
      if b.2 ≤ p.2 ∧ 0 < p.2 then p else b

/-- The per-kind confidence table of one event, in signature order. -/
def ruleKindTable (e : Event) : List (String × ℚ) :=
  attack_signatures.map (fun sig =>
    (sig.1, kindConfidence sig.1 sig.2 (lowerChars (e.message.getD ""))
      (e.dst_port.getD 0)))

/-- classifier.py `classify_attack`. The statistical backup stage
(`_ml_classification`, a RandomForest) is kept abstract as the
function argument `ml`; `is_trained` is the homonymous flag. -/
def classify_attack (is_trained : Bool) (ml : Event → ClassResult) (e : Event) :
    ClassResult :=
  let rule_result := rule_based_classification e
  if 7/10 < rule_result.confidence then rule_result
  else if is_trained then
    let ml_result := ml e
    if rule_result.confidence < ml_result.confidence then ml_result else rule_result
  else rule_result

/-! ## anamoly_detector.py: AnomalyDetector -/

structure Anomaly where
  type : String
  ip : Option String
  severity : String
  confidence : ℚ
  deriving DecidableEq

namespace AnomalyDetector

/-- Temporal-burst check of `AnomalyDetector.detect`. -/
def detect_temporal (events : List Event) : List Anomaly :=
  let times := events.filterMap (fun e => e.timestamp)
  match times with
  | [] => []
  | t :: ts =>
      let time_window := ts.foldl max t - ts.foldl min t
      if time_window < 60 ∧ 100 < events.length then
        [⟨"Temporal Burst", none, "medium", 4/5⟩]
      else []

/-- Unusual-port-targeting check of `AnomalyDetector.detect`. -/
def detect_ports (events : List Event) : List Anomaly :=
  let targeted_ports := valueCounts (events.filterMap (fun e => e.dst_port))
  let unusual_ports :=
    targeted_ports.filter (fun p => p.1 ∉ [22, 80, 443, 3389, 21, 25, 53])
  if 5 < unusual_ports.length then
    [⟨"Unusual Port Targeting", none, "low", 3/5⟩]
  else []

/-- IP-frequency-spike check of `AnomalyDetector.detect`; the full
(untruncated) per-source count table is scanned. -/
def detect_spikes (events : List Event) : List Anomaly :=
  (valueCounts (events.filterMap (fun e => e.src_ip))).filterMap (fun p =>
    if 50 < p.2 then
      some ⟨"IP Frequency Spike", some p.1,
            if 100 < p.2 then "high" else "medium",
            min (19/20) ((p.2 : ℚ) / 150)⟩
    else none)

/-- anamoly_detector.py `AnomalyDetector.detect`: the three checks
appended in source order. -/
def detect (events : List Event) : List Anomaly :=
  detect_temporal events ++ detect_ports events ++ detect_spikes events

end AnomalyDetector

/-- analyer.py `_detect_anomalies` (the orchestrator-internal,
FeatureSet-based detector used inside `analyze_logs`). -/
def detect_anomalies (f : Features) : List Anomaly :=
  let t1 :=
    match f.time_range with
    | some tr =>
        if tr.duration_minutes < 1 ∧ 100 < f.total_events then
          [⟨"temporal_anomaly", none, "medium", 4/5⟩]
        else []
    | none => []
  let top_ports := f.port_frequency.map Prod.fst
  let unusual_ports := top_ports.filter (fun p => p ∉ [22, 80, 443, 21, 25, 53, 3389])
  let t2 :=
    if 3 < unusual_ports.length then [⟨"unusual_ports", none, "low", 3/5⟩] else []
  t1 ++ t2

/-! ## Port prioritization (analyer.py and adaptation_engine.py) -/

/-- Allowlist stage of `_identify_high_value_ports`: critical ports
whose observed frequency exceeds 5. -/
def hvAllow (critical_ports : List Nat) (port_freq : List (Nat × Nat)) : List Nat :=
  critical_ports.filter (fun p =>
    match alookup port_freq p with
    | some c => 5 < c
    | none => false)

/-- Shared algorithmic shape of the two `_identify_high_value_ports`
copies, abstracted over the critical-port allowlist. -/
def hvPorts (critical_ports : List Nat) (port_freq : List (Nat × Nat)) : List Nat :=
  (port_freq.foldl
    (fun acc pc => if 10 < pc.2 ∧ pc.1 ∉ acc then acc ++ [pc.1] else acc)
    (hvAllow critical_ports port_freq)).take 10

/-- analyer.py `_identify_high_value_ports` (ten critical ports). -/
def identify_high_value_ports (port_freq : List (Nat × Nat)) : List Nat :=
  hvPorts [22, 21, 80, 443, 3389, 25, 53, 135, 139, 445] port_freq

namespace AdaptationEngine

/-- adaptation_engine.py `_identify_high_value_ports` (five critical
ports only). -/
def identify_high_value_ports (port_freq : List (Nat × Nat)) : List Nat :=
  hvPorts [22, 21, 80, 443, 3389] port_freq

end AdaptationEngine

/-! ## analyer.py: orchestrator pipeline -/

/-- One classified attack (analyer.py `_classify_attacks` entries);
the md5 id, free-text description, wall-clock timestamp and the
indicators sub-dict are dropped as contentless for the claims. -/
structure Attack where
  type : String
  severity : String
  source_ip : String
  confidence : ℚ
  deriving DecidableEq

/-- analyer.py `_classify_attacks`: frequency-threshold brute-force
entries, then port-scan entries, both scanning the per-source
pattern table in order. -/
def classify_attacks (f : Features) : List Attack :=
  let brute := (f.patterns.filter (fun p => 10 < p.2.frequency)).map (fun p =>
    { type := "brute_force"
      severity := if 50 < p.2.frequency then "high" else "medium"
      source_ip := p.1
      confidence := min (9/10) ((p.2.frequency : ℚ) / 100) })
  let port_scanners := f.patterns.filter (fun p => 5 < p.2.ports_targeted)
  let scans := port_scanners.map (fun p =>
    { type := "port_scan"
      severity := "medium"
      source_ip := p.1
      confidence := min (19/20) ((p.2.ports_targeted : ℚ) / 20) })
  brute ++ scans

structure Threat where
  severity : String
  type : String
  source : String
  business_impact : String
  recommended_actions : List String
  attack_types : List String
  deriving DecidableEq

/-- analyer.py `_assess_business_impact`. -/
def assess_business_impact (a : Attack) : String :=
  if a.type = "brute_force" then
    "Medium - Potential service disruption and credential compromise"
  else if a.type = "port_scan" then
    "Low - Reconnaissance activity, may precede actual attack"
  else if a.type = "web_attack" then
    "High - Direct threat to web services and data"
  else if a.type = "malware" then
    "Critical - System compromise and data breach risk"
  else "Unknown impact"

/-- analyer.py `_get_recommended_actions`. -/
def get_recommended_actions (a : Attack) : List String :=
  if a.type = "brute_force" then
    ["Change default passwords immediately", "Enable account lockout policies",
     "Consider IP blocking", "Review access logs"]
  else if a.type = "port_scan" then
    ["Close unnecessary open ports", "Enable firewall logging",
     "Monitor for follow-up attacks", "Review network segmentation"]
  else if a.type = "web_attack" then
    ["Update web application", "Enable WAF protection",
     "Review application logs", "Patch known vulnerabilities"]
  else ["Review security policies", "Monitor closely"]

/-- analyer.py `_analyze_threats`: immediate threats from
high-severity attacks, then persistent threats from the by-source
grouping (dict insertion order = first-encounter order of sources);
the anomalies argument is accepted and ignored, as in the source. -/
def analyze_threats (attacks : List Attack) (anomalies : List Anomaly) : List Threat :=
  let immediate := (attacks.filter (fun a => a.severity = "high")).map (fun a =>
    { severity := "critical"
      type := "immediate_threat"
      source := a.source_ip
      business_impact := assess_business_impact a
      recommended_actions := get_recommended_actions a
      attack_types := [] })
  let ips := firstSeen (attacks.map (fun a => a.source_ip))
  let persistent := (ips.filter (fun ip =>
      1 < (attacks.filter (fun a => a.source_ip = ip)).length)).map (fun ip =>
    { severity := "high"
      type := "persistent_threat"
      source := ip
      business_impact := "High - Targeted attack likely"
      recommended_actions :=
        ["Block IP immediately", "Review security policies",
         "Monitor related IPs"]
      attack_types := (attacks.filter (fun a => a.source_ip = ip)).map (fun a => a.type) })
  immediate ++ persistent

inductive RecParams where
  | adapt (ports : List Nat) (services : List String) (count : Nat)
  | blockIps (ips : List String) (duration : String) (scope : String)
  | monitoring (focus_ports : List Nat) (alert_threshold : Nat)
  deriving DecidableEq

structure Recommendation where
  type : String
  priority : String
  action : String
  params : RecParams
  deriving DecidableEq

/-- analyer.py `_generate_recommendations`. -/
def generate_recommendations (threats : List Threat) (f : Features) : List Recommendation :=
  let r1 :=
    if 0 < threats.length then
      let high_value_ports := identify_high_value_ports f.port_frequency
      [⟨"adapt", "high", "spawn_honeypots",
        .adapt high_value_ports ["ssh", "web", "ftp"] (min 5 high_value_ports.length)⟩]
    else []
  let frequent_attackers := (f.ip_frequency.filter (fun p => 20 < p.2)).map Prod.fst
  let r2 :=
    if frequent_attackers ≠ [] then
      [⟨"security_policy", "critical", "block_ips",
        .blockIps frequent_attackers "permanent" "all_services"⟩]
    else []
  let r3 :=
    if 10 < f.unique_ports then
      [⟨"monitoring", "medium", "enhance_monitoring",
        .monitoring ((f.port_frequency.map Prod.fst).take 5) 10⟩]
    else []
  r1 ++ r2 ++ r3

structure RepUpdate where
  old_score : ℤ
  new_score : ℤ
  change : ℤ
  deriving DecidableEq

/-- analyer.py `_get_reputation_updates`; `scores` is the
process-wide `reputation_scores` state, with 50 the neutral start
for an unseen source. -/
def get_reputation_updates (scores : List (String × ℤ)) (known : List String)
    (f : Features) : List (String × RepUpdate) :=
  f.ip_frequency.map (fun p =>
    let current_score := (alookup scores p.1).getD 50
    let penalty : ℤ := min ((p.2 : ℤ) * 2) 40
    let base_score := max 0 (current_score - penalty)
    let new_score := if p.1 ∈ known then max 0 (base_score - 20) else base_score
    (p.1, ⟨current_score, new_score, new_score - current_score⟩))

/-- Statistics record (analyer.py `_generate_statistics`); the
top_attacker / most_targeted_port pairs are dropped: the error and
empty paths never carry them and no claim reads them. -/
structure Statistics where
  total_events : Nat
  unique_attackers : Nat
  ports_targeted : Nat
  attack_intensity : String
  threat_level : String
  deriving DecidableEq

/-- analyer.py `_calculate_attack_intensity`. -/
def calculate_attack_intensity (f : Features) : String :=
  match f.time_range with
  | none => "Unknown"
  | some tr =>
      if tr.duration_minutes = 0 then "Unknown"
      else
        let events_per_minute := (f.total_events : ℚ) / tr.duration_minutes
        if 50 < events_per_minute then "Critical"
        else if 20 < events_per_minute then "High"
        else if 5 < events_per_minute then "Medium"
        else "Low"

/-- analyer.py `_calculate_threat_level`. -/
def calculate_threat_level (known : List String) (f : Features) : String :=
  let max_freq : Nat := (f.ip_frequency.map Prod.snd).foldr max 0
  let score : ℚ :=
    min ((f.unique_ips : ℚ) * 2) 20
    + min ((f.unique_ports : ℚ) * (3/2)) 15
    + ((f.ip_frequency.filter (fun p => p.1 ∈ known)).length : ℚ) * 10
    + min ((max_freq : ℚ) / 10) 25
  if 60 < score then "Critical"
  else if 40 < score then "High"
  else if 20 < score then "Medium"
  else "Low"

/-- analyer.py `_generate_statistics` (minus the two dropped pairs). -/
def generate_statistics (known : List String) (f : Features) : Statistics :=
  ⟨f.total_events, f.unique_ips, f.unique_ports,
   calculate_attack_intensity f, calculate_threat_level known f⟩

/-- analyer.py Report dict; `statistics` and `reputation_updates` are
optional because the error path omits those keys entirely. -/
structure Report where
  error : Option String
  attacks : List Attack
  anomalies : List Anomaly
  threats : List Threat
  recommendations : List Recommendation
  statistics : Option Statistics
  reputation_updates : Option (List (String × RepUpdate))
  deriving DecidableEq

/-- analyer.py `_empty_response`. -/
def empty_response : Report :=
  ⟨none, [], [], [], [], some ⟨0, 0, 0, "None", "Low"⟩, some []⟩

/-- analyer.py `analyze_logs` except branch: the error report carries
an error message and empty collections, and no statistics or
reputation_updates keys. -/
def error_response (msg : String) : Report :=
  ⟨some msg, [], [], [], [], none, none⟩

/-- analyer.py `analyze_logs` success path; `known` and `scores` are
the process-wide `known_malicious_ips` and `reputation_scores` state. -/
def analyze_logs (known : List String) (scores : List (String × ℤ))
    (logs : List Event) : Report :=
  if logs = [] then empty_response
  else
    let features := extract_features known logs
    let attacks := classify_attacks features
    let anomalies := detect_anomalies features
    let threats := analyze_threats attacks anomalies
    let recommendations := generate_recommendations threats features
    ⟨none, attacks, anomalies, threats, recommendations,
      some (generate_statistics known features),
      some (get_reputation_updates scores known features)⟩

/-- The try/except wrapper around the pass: a fault raised anywhere
inside is caught and becomes the error report. -/
def analyze_logs_try (fault : Option String) (known : List String)
    (scores : List (String × ℤ)) (logs : List Event) : Report :=
  match fault with
  | some e => error_response e
  | none => analyze_logs known scores logs

/-! ## Concrete inputs used by counterexamples and witnesses -/

/-- Two same-kind, same-source, medium-severity attack entries. -/
def cxAttackA : Attack := ⟨"brute_force", "medium", "10.0.0.9", 1/2⟩

def cxAttackB : Attack := ⟨"brute_force", "medium", "10.0.0.9", 3/5⟩

/-- An event matching two of the four ddos signature patterns, so its
rule confidence is min(0.9, 2/4 + 0.3) = 0.8 with no ddos port boost. -/
def evDdos : Event :=
  ⟨some "9.9.9.9", some 80, some "tcp", some "SYN flood and UDP flood", none⟩

/-- An event with every field absent; no signature matches. -/
def evEmpty : Event := ⟨none, none, none, none, none⟩

/-- Stand-ins for the statistical backup stage. -/
def mlStub : Event → ClassResult := fun _ => ⟨"stub", 1/2, "machine_learning"⟩

def mlStub2 : Event → ClassResult := fun _ => ⟨"stub2", 1/3, "machine_learning"⟩

/-- One event of Scenario A: source 10.0.0.1, destination port 22,
message "Failed password for root". -/
def evScenA : Event :=
  ⟨some "10.0.0.1", some 22, some "ssh", some "Failed password for root", some 0⟩

/-- Scenario A: 60 such events inside a 10-second window (all at the
same instant, so the window is 0 seconds). -/
def scenarioA : List Event := List.replicate 60 evScenA

/-! ## Shared helper lemmas -/

theorem mem_firstSeenAux {α : Type} [DecidableEq α] (l : List α) :
    ∀ (seen : List α) (x : α), x ∈ firstSeenAux seen l ↔ x ∈ l ∧ x ∉ seen := by
  induction l with
  | nil => simp [firstSeenAux]
  | cons a rest ih =>
      intro seen x
      by_cases ha : a ∈ seen
      · simp only [firstSeenAux, if_pos ha, ih, List.mem_cons]
        constructor
        · rintro ⟨hx, hns⟩
          exact ⟨Or.inr hx, hns⟩
        · rintro ⟨rfl | hx, hns⟩
          · exact absurd ha hns
          · exact ⟨hx, hns⟩
      · simp only [firstSeenAux, if_neg ha, List.mem_cons, ih, not_or]
        constructor
        · rintro (rfl | ⟨hx, hxa, hns⟩)
          · exact ⟨Or.inl rfl, ha⟩
          · exact ⟨Or.inr hx, hns⟩
        · rintro ⟨rfl | hx, hns⟩
          · exact Or.inl rfl
          · by_cases hxa : x = a
            · exact Or.inl hxa
            · exact Or.inr ⟨hx, hxa, hns⟩

theorem mem_firstSeen {α : Type} [DecidableEq α] (l : List α) (x : α) :
    x ∈ firstSeen l ↔ x ∈ l := by
  simp [firstSeen, mem_firstSeenAux]

theorem filterMap_guard {α β : Type} (p : α → Bool) (h : α → β) (l : List α) :
    l.filterMap (fun a => if p a then some (h a) else none) = (l.filter p).map h := by
  induction l with
  | nil => rfl
  | cons a rest ih =>
      by_cases hp : p a <;> simp [List.filterMap_cons, List.filter_cons, hp, ih]

theorem filterMap_replicate_eq {α β : Type} (f : α → Option β) (a : α) (b : β)
    (h : f a = some b) : ∀ n, (List.replicate n a).filterMap f = List.replicate n b := by
  intro n
  induction n with
  | zero => rfl
  | succ n ih => simp [List.replicate_succ, List.filterMap_cons, h, ih]

theorem foldl_max_replicate {α : Type} [LinearOrder α] (a : α) :
    ∀ n, (List.replicate n a).foldl max a = a := by
  intro n
  induction n with
  | zero => rfl
  | succ n ih => simpa [List.replicate_succ, max_self] using ih

theorem foldl_min_replicate {α : Type} [LinearOrder α] (a : α) :
    ∀ n, (List.replicate n a).foldl min a = a := by
  intro n
  induction n with
  | zero => rfl
  | succ n ih => simpa [List.replicate_succ, min_self] using ih

theorem alookup_mem {α β : Type} [DecidableEq α] (l : List (α × β)) (a : α) (b : β)
    (h : alookup l a = some b) : (a, b) ∈ l := by
  induction l with
  | nil => simp [alookup] at h
  | cons p rest ih =>
      obtain ⟨p1, p2⟩ := p
      by_cases hp : p1 = a
      · subst hp
        simp [alookup] at h
        subst h
        exact List.mem_cons_self _ _
      · simp only [alookup, if_neg hp] at h
        exact List.mem_cons_of_mem _ (ih h)

/-! ## Claim theorems -/

/-- C8: on the empty batch, `analyze_logs` returns the canonical
empty Report: all four collection lists empty, statistics reporting
attack intensity "None" and threat level "Low", and no error field. -/
theorem empty_batch_canonical_report :
    ∀ (known : List String) (scores : List (String × ℤ)),
      analyze_logs known scores [] = empty_response ∧
      empty_response.attacks = [] ∧
      empty_response.anomalies = [] ∧
      empty_response.threats = [] ∧
      empty_response.recommendations = [] ∧
      empty_response.statistics.map Statistics.attack_intensity = some "None" ∧
      empty_response.statistics.map Statistics.threat_level = some "Low" ∧
      empty_response.error = none := by
  intro known scores
  exact ⟨rfl, rfl, rfl, rfl, rfl, rfl, rfl, rfl⟩

/-- C10: a caught internal fault yields a report with an error field
and empty attacks/anomalies/threats/recommendations, carrying neither
statistics nor reputation_updates; the success path (fault-free pass)
always carries both and no error field. -/
theorem fault_report_shape :
    ∀ (fault : Option String) (known : List String) (scores : List (String × ℤ))
      (logs : List Event),
      (∀ e, fault = some e →
        analyze_logs_try fault known scores logs =
          { error := some e, attacks := [], anomalies := [], threats := [],
            recommendations := [], statistics := none, reputation_updates := none }) ∧
      (fault = none →
        (analyze_logs_try fault known scores logs).error = none ∧
        (analyze_logs_try fault known scores logs).statistics.isSome = true ∧
        (analyze_logs_try fault known scores logs).reputation_updates.isSome = true) := by
  intro fault known scores logs
  constructor
  · rintro e rfl
    rfl
  · rintro rfl
    simp only [analyze_logs_try]
    by_cases h : logs = []
    · subst h
      exact ⟨rfl, rfl, rfl⟩
    · simp [analyze_logs, h]

theorem fault_report_shape_witness :
    analyze_logs_try (some "division by zero") [] [] [] =
      { error := some "division by zero", attacks := [], anomalies := [], threats := [],
        recommendations := [], statistics := none, reputation_updates := none } ∧
    (analyze_logs_try none [] [] []).statistics.isSome = true := by
  constructor
  · exact (fault_report_shape (some "division by zero") [] [] []).1 "division by zero" rfl
  · exact ((fault_report_shape none [] [] []).2 rfl).2.1

/-- C6: each reputation update starts from 50 for an unseen source,
applies new = max(0, old − min(frequency*2, 40)) with a further
floor-clamped −20 for a known-malicious source, and keeps the score
inside [0,100] for arbitrary frequency when the stored scores are in
[0,100]. -/
theorem reputation_update_formula_and_bounds :
    ∀ (scores : List (String × ℤ)) (known : List String) (f : Features),
      (∀ q ∈ scores, 0 ≤ q.2 ∧ q.2 ≤ 100) →
      ∀ ip u, (ip, u) ∈ get_reputation_updates scores known f →
        (alookup scores ip = none → u.old_score = 50) ∧
        (∃ freq : Nat, (ip, freq) ∈ f.ip_frequency ∧
          u.new_score =
            (if ip ∈ known then
              max 0 (max 0 (u.old_score - min ((freq : ℤ) * 2) 40) - 20)
            else max 0 (u.old_score - min ((freq : ℤ) * 2) 40))) ∧
        0 ≤ u.new_score ∧ u.new_score ≤ 100 ∧ u.new_score ≤ u.old_score := by
  intro scores known f hvalid ip u hmem
  unfold get_reputation_updates at hmem
  rw [List.mem_map] at hmem
  obtain ⟨p, hp, heq⟩ := hmem
  obtain ⟨hip, hu⟩ := Prod.ext_iff.1 heq
  dsimp only at hip hu
  subst hip
  subst hu
  have hold : 0 ≤ (alookup scores p.1).getD 50 ∧ (alookup scores p.1).getD 50 ≤ 100 := by
    cases halo : alookup scores p.1 with
    | none => simp
    | some v =>
        have := hvalid (p.1, v) (alookup_mem scores p.1 v halo)
        simpa using this
  have hpen : (0 : ℤ) ≤ min ((p.2 : ℤ) * 2) 40 :=
    le_min (by positivity) (by norm_num)
  have hbase₁ : (0 : ℤ) ≤ max 0 ((alookup scores p.1).getD 50 - min ((p.2 : ℤ) * 2) 40) :=
    le_max_left _ _
  have hbase₂ : max 0 ((alookup scores p.1).getD 50 - min ((p.2 : ℤ) * 2) 40) ≤
      (alookup scores p.1).getD 50 :=
    max_le hold.1 (by linarith)
  refine ⟨?_, ⟨p.2, hp, rfl⟩, ?_, ?_, ?_⟩
  · intro hnone
    show (alookup scores p.1).getD 50 = 50
    rw [hnone]
    rfl
  · show (0 : ℤ) ≤ _
    dsimp only
    split_ifs with hk
    · exact le_max_left _ _
    · exact hbase₁
  · show _ ≤ (100 : ℤ)
    dsimp only
    split_ifs with hk
    · exact le_trans (max_le (by linarith [hold.2]) (by linarith [hbase₂, hold.2])) le_rfl
    · exact le_trans hbase₂ hold.2
  · show _ ≤ (alookup scores p.1).getD 50
    dsimp only
    split_ifs with hk
    · exact le_trans (max_le hold.1 (by linarith [hbase₂])) le_rfl
    · exact hbase₂

theorem reputation_update_formula_and_bounds_witness :
    0 ≤ ({ old_score := 50, new_score := 10, change := -40 } : RepUpdate).new_score ∧
    ({ old_score := 50, new_score := 10, change := -40 } : RepUpdate).new_score ≤ 100 := by
  have h := reputation_update_formula_and_bounds [] []
    ⟨60, 1, 1, none, [("10.0.0.1", 60)], [(22, 60)], []⟩
    (by intro q hq; simp at hq)
    "10.0.0.1" { old_score := 50, new_score := 10, change := -40 }
    (by decide)
  exact ⟨h.2.2.1, h.2.2.2.1⟩

/-! ## Port prioritization lemmas (C5) -/

theorem hv_foldl_prefix (pf : List (Nat × Nat)) :
    ∀ acc : List Nat,
      ∃ t, pf.foldl
          (fun acc pc => if 10 < pc.2 ∧ pc.1 ∉ acc then acc ++ [pc.1] else acc) acc
        = acc ++ t := by
  induction pf with
  | nil => intro acc; exact ⟨[], by simp⟩
  | cons pc pf ih =>
      intro acc
      simp only [List.foldl_cons]
      by_cases hc : 10 < pc.2 ∧ pc.1 ∉ acc
      · obtain ⟨t, ht⟩ := ih (acc ++ [pc.1])
        rw [if_pos hc] at *
        exact ⟨[pc.1] ++ t, by rw [ht, List.append_assoc]⟩
      · obtain ⟨t, ht⟩ := ih acc
        rw [if_neg hc]
        exact ⟨t, ht⟩

theorem hv_foldl_mem (pf : List (Nat × Nat)) :
    ∀ (acc : List Nat) (x : Nat),
      (x ∈ pf.foldl
          (fun acc pc => if 10 < pc.2 ∧ pc.1 ∉ acc then acc ++ [pc.1] else acc) acc)
        ↔ x ∈ acc ∨ ∃ c, (x, c) ∈ pf ∧ 10 < c := by
  induction pf with
  | nil => intro acc x; simp
  | cons pc pf ih =>
      intro acc x
      obtain ⟨p, c⟩ := pc
      simp only [List.foldl_cons, ih, List.mem_cons, Prod.mk.injEq]
      by_cases hc : 10 < c ∧ p ∉ acc
      · rw [if_pos hc]
        simp only [List.mem_append, List.mem_singleton]
        constructor
        · rintro (((hx | rfl) | ⟨d, hd, h10⟩))
          · exact Or.inl hx
          · exact Or.inr ⟨c, Or.inl ⟨rfl, rfl⟩, hc.1⟩
          · exact Or.inr ⟨d, Or.inr hd, h10⟩
        · rintro (hx | ⟨d, (⟨rfl, rfl⟩ | hd), h10⟩)
          · exact Or.inl (Or.inl hx)
          · exact Or.inl (Or.inr rfl)
          · exact Or.inr ⟨d, hd, h10⟩
      · rw [if_neg hc]
        push_neg at hc
        constructor
        · rintro (hx | ⟨d, hd, h10⟩)
          · exact Or.inl hx
          · exact Or.inr ⟨d, Or.inr hd, h10⟩
        · rintro (hx | ⟨d, (⟨rfl, rfl⟩ | hd), h10⟩)
          · exact Or.inl hx
          · exact Or.inl (hc h10)
          · exact Or.inr ⟨d, hd, h10⟩

theorem mem_hvAllow (critical_ports : List Nat) (pf : List (Nat × Nat)) (x : Nat) :
    x ∈ hvAllow critical_ports pf ↔
      x ∈ critical_ports ∧ ∃ c, alookup pf x = some c ∧ 5 < c := by
  unfold hvAllow
  rw [List.mem_filter]
  constructor
  · rintro ⟨hx, hcond⟩
    refine ⟨hx, ?_⟩
    cases halo : alookup pf x with
    | none => rw [halo] at hcond; simp at hcond
    | some c =>
        rw [halo] at hcond
        simp only [decide_eq_true_eq] at hcond
        exact ⟨c, rfl, hcond⟩
  · rintro ⟨hx, c, halo, hc⟩
    refine ⟨hx, ?_⟩
    rw [halo]
    simpa using hc

/-- C5 counterexample: the two helpers are not one shared algorithm
over the ten-port critical set. Port 25 with observed frequency 6 is
in the claimed critical set with frequency above 5, yet the
adaptation-engine copy (whose allowlist is only
{22,21,80,443,3389}) omits it, while the analyzer copy keeps it. -/
theorem high_value_ports_shared_set_counterexample :
    25 ∈ [22, 21, 80, 443, 3389, 25, 53, 135, 139, 445] ∧
    (5 : Nat) < 6 ∧
    AdaptationEngine.identify_high_value_ports [(25, 6)] = [] ∧
    identify_high_value_ports [(25, 6)] = [25] := by
  refine ⟨by decide, by decide, by decide, by decide⟩

/-- C5 amended: each copy of the helper runs the claimed
allowlist-then-discovery algorithm, but over its own critical set —
{22,21,80,443,3389,25,53,135,139,445} in the analyzer,
{22,21,80,443,3389} in the adaptation engine: the untruncated list
starts with the allowlisted ports of frequency above 5, a port
belongs to it exactly when allowlisted-and-frequent or of frequency
above 10, and the result is the first 10 entries. -/
theorem high_value_ports_amended :
    ∀ pf : List (Nat × Nat),
      (identify_high_value_ports pf).length ≤ 10 ∧
      (AdaptationEngine.identify_high_value_ports pf).length ≤ 10 ∧
      (∃ l, identify_high_value_ports pf = l.take 10 ∧
        (∃ d, l = hvAllow [22, 21, 80, 443, 3389, 25, 53, 135, 139, 445] pf ++ d) ∧
        (∀ x, x ∈ l ↔ x ∈ hvAllow [22, 21, 80, 443, 3389, 25, 53, 135, 139, 445] pf ∨
            ∃ c, (x, c) ∈ pf ∧ 10 < c)) ∧
      (∃ l, AdaptationEngine.identify_high_value_ports pf = l.take 10 ∧
        (∃ d, l = hvAllow [22, 21, 80, 443, 3389] pf ++ d) ∧
        (∀ x, x ∈ l ↔ x ∈ hvAllow [22, 21, 80, 443, 3389] pf ∨
            ∃ c, (x, c) ∈ pf ∧ 10 < c)) ∧
      (∀ x, x ∈ hvAllow [22, 21, 80, 443, 3389, 25, 53, 135, 139, 445] pf ↔
          x ∈ [22, 21, 80, 443, 3389, 25, 53, 135, 139, 445] ∧
          ∃ c, alookup pf x = some c ∧ 5 < c) := by
  intro pf
  refine ⟨?_, ?_, ?_, ?_, ?_⟩
  · simp [identify_high_value_ports, hvPorts, List.length_take]
  · simp [AdaptationEngine.identify_high_value_ports, hvPorts, List.length_take]
  · refine ⟨_, rfl, hv_foldl_prefix pf _, ?_⟩
    intro x
    exact hv_foldl_mem pf _ x
  · refine ⟨_, rfl, hv_foldl_prefix pf _, ?_⟩
    intro x
    exact hv_foldl_mem pf _ x
  · intro x
    exact mem_hvAllow _ pf x

/-! ## Recommendation engine (C7) -/

theorem generate_recommendations_eq (threats : List Threat) (f : Features) :
    generate_recommendations threats f =
      (if 0 < threats.length then
        [⟨"adapt", "high", "spawn_honeypots",
          .adapt (identify_high_value_ports f.port_frequency) ["ssh", "web", "ftp"]
            (min 5 (identify_high_value_ports f.port_frequency).length)⟩]
      else []) ++
      (if (f.ip_frequency.filter (fun p => 20 < p.2)).map Prod.fst ≠ [] then
        [⟨"security_policy", "critical", "block_ips",
          .blockIps ((f.ip_frequency.filter (fun p => 20 < p.2)).map Prod.fst)
            "permanent" "all_services"⟩]
      else []) ++
      (if 10 < f.unique_ports then
        [⟨"monitoring", "medium", "enhance_monitoring",
          .monitoring ((f.port_frequency.map Prod.fst).take 5) 10⟩]
      else []) := rfl

/-- C7: at most three recommendations per pass; the `adapt` one of
priority high appears exactly when threats are non-empty, with the
prioritized ports (at most 10), the fixed decoy-service list, and
instance count min(5, port count); the `block_ips` one of priority
critical appears exactly when some tabulated source frequency
exceeds 20, with those sources, duration "permanent" and scope
"all_services"; the `enhance_monitoring` one of priority medium
appears exactly when the unique-port count exceeds 10, with the
first 5 entries of the descending port table and alert threshold 10. -/
theorem recommendation_triggers :
    ∀ (threats : List Threat) (f : Features),
      (generate_recommendations threats f).length ≤ 3 ∧
      ((∃ r ∈ generate_recommendations threats f, r.type = "adapt") ↔ threats ≠ []) ∧
      (∀ r ∈ generate_recommendations threats f, r.type = "adapt" →
        r.priority = "high" ∧ r.action = "spawn_honeypots" ∧
        r.params = RecParams.adapt (identify_high_value_ports f.port_frequency)
          ["ssh", "web", "ftp"] (min 5 (identify_high_value_ports f.port_frequency).length) ∧
        (identify_high_value_ports f.port_frequency).length ≤ 10) ∧
      ((∃ r ∈ generate_recommendations threats f, r.action = "block_ips") ↔
        ∃ p ∈ f.ip_frequency, 20 < p.2) ∧
      (∀ r ∈ generate_recommendations threats f, r.action = "block_ips" →
        r.priority = "critical" ∧
        r.params = RecParams.blockIps
          ((f.ip_frequency.filter (fun p => 20 < p.2)).map Prod.fst)
          "permanent" "all_services") ∧
      ((∃ r ∈ generate_recommendations threats f, r.action = "enhance_monitoring") ↔
        10 < f.unique_ports) ∧
      (∀ r ∈ generate_recommendations threats f, r.action = "enhance_monitoring" →
        r.priority = "medium" ∧
        r.params = RecParams.monitoring ((f.port_frequency.map Prod.fst).take 5) 10) := by
  intro threats f
  have hlen : (identify_high_value_ports f.port_frequency).length ≤ 10 := by
    simp [identify_high_value_ports, hvPorts, List.length_take]
  have hthreats : 0 < threats.length ↔ threats ≠ [] := List.length_pos
  have hblock : (f.ip_frequency.filter (fun p => 20 < p.2)).map Prod.fst ≠ [] ↔
      ∃ p ∈ f.ip_frequency, 20 < p.2 := by
    rw [ne_eq, List.map_eq_nil_iff, List.filter_eq_nil_iff]
    push_neg
    simp
  rw [generate_recommendations_eq]
  by_cases h1 : 0 < threats.length <;>
    by_cases h2 : (f.ip_frequency.filter (fun p => 20 < p.2)).map Prod.fst ≠ [] <;>
    by_cases h3 : 10 < f.unique_ports <;>
    simp only [if_pos, if_neg, h1, h2, h3, if_true, if_false, ite_true, ite_false,
      not_true, not_false_iff, List.append_nil, List.nil_append, List.append_assoc] <;>
    simp_all [List.mem_append, hthreats.symm, hblock.symm] <;>
    tauto

theorem recommendation_triggers_witness :
    (generate_recommendations [] ⟨0, 0, 0, none, [], [], []⟩).length ≤ 3 ∧
    ((∃ r ∈ generate_recommendations []
        (⟨0, 0, 0, none, [], [], []⟩ : Features), r.type = "adapt") ↔
      ([] : List Threat) ≠ []) := by
  have h := recommendation_triggers [] ⟨0, 0, 0, none, [], [], []⟩
  exact ⟨h.1, h.2.1⟩

/-! ## Orchestrator classification shape (C9) -/

/-- C9: the orchestrator's classification step only emits brute_force
and port_scan entries; per source (given the per-source pattern table
has distinct keys, as the extractor guarantees) there is at most one
of each kind, a brute_force entry exactly when the source frequency
exceeds 10 with confidence min(0.9, frequency/100), and a port_scan
entry exactly when its distinct targeted ports exceed 5 with
confidence min(0.95, ports_targeted/20). -/
theorem orchestrator_attack_shape :
    ∀ f : Features, (f.patterns.map Prod.fst).Nodup →
      (∀ a ∈ classify_attacks f, a.type = "brute_force" ∨ a.type = "port_scan") ∧
      (((classify_attacks f).filter (fun a => a.type = "brute_force")).map
          (fun a => a.source_ip)).Nodup ∧
      (((classify_attacks f).filter (fun a => a.type = "port_scan")).map
          (fun a => a.source_ip)).Nodup ∧
      (∀ s : String,
        ((∃ a ∈ classify_attacks f, a.type = "brute_force" ∧ a.source_ip = s) ↔
          ∃ d, (s, d) ∈ f.patterns ∧ 10 < d.frequency) ∧
        ((∃ a ∈ classify_attacks f, a.type = "port_scan" ∧ a.source_ip = s) ↔
          ∃ d, (s, d) ∈ f.patterns ∧ 5 < d.ports_targeted)) ∧
      (∀ a ∈ classify_attacks f, a.type = "brute_force" →
        ∃ d, (a.source_ip, d) ∈ f.patterns ∧ 10 < d.frequency ∧
          a.confidence = min (9/10) ((d.frequency : ℚ) / 100)) ∧
      (∀ a ∈ classify_attacks f, a.type = "port_scan" →
        ∃ d, (a.source_ip, d) ∈ f.patterns ∧ 5 < d.ports_targeted ∧
          a.confidence = min (19/20) ((d.ports_targeted : ℚ) / 20)) := by
  intro f hnodup
  have hBfilter : (classify_attacks f).filter (fun a => a.type = "brute_force") =
      (f.patterns.filter (fun p => 10 < p.2.frequency)).map (fun p =>
        { type := "brute_force"
          severity := if 50 < p.2.frequency then "high" else "medium"
          source_ip := p.1
          confidence := min (9/10) ((p.2.frequency : ℚ) / 100) }) := by
    simp [classify_attacks, List.filter_append, List.filter_map, Function.comp_def]
  have hSfilter : (classify_attacks f).filter (fun a => a.type = "port_scan") =
      (f.patterns.filter (fun p => 5 < p.2.ports_targeted)).map (fun p =>
        { type := "port_scan"
          severity := "medium"
          source_ip := p.1
          confidence := min (19/20) ((p.2.ports_targeted : ℚ) / 20) }) := by
    simp [classify_attacks, List.filter_append, List.filter_map, Function.comp_def]
  refine ⟨?_, ?_, ?_, ?_, ?_, ?_⟩
  · intro a ha
    unfold classify_attacks at ha
    simp only [List.mem_append, List.mem_map, List.mem_filter] at ha
    rcases ha with ⟨p, hp, rfl⟩ | ⟨p, hp, rfl⟩
    · exact Or.inl rfl
    · exact Or.inr rfl
  · rw [hBfilter, List.map_map]
    show ((f.patterns.filter (fun p => 10 < p.2.frequency)).map Prod.fst).Nodup
    exact hnodup.sublist ((List.filter_sublist _).map Prod.fst)
  · rw [hSfilter, List.map_map]
    show ((f.patterns.filter (fun p => 5 < p.2.ports_targeted)).map Prod.fst).Nodup
    exact hnodup.sublist ((List.filter_sublist _).map Prod.fst)
  · intro s
    constructor
    · constructor
      · rintro ⟨a, ha, htype, hsrc⟩
        unfold classify_attacks at ha
        simp only [List.mem_append, List.mem_map, List.mem_filter] at ha
        rcases ha with ⟨p, ⟨hp, hcond⟩, rfl⟩ | ⟨p, ⟨hp, hcond⟩, rfl⟩
        · subst hsrc
          exact ⟨p.2, by simpa using hp, by simpa using hcond⟩
        · simp at htype
      · rintro ⟨d, hd, hcond⟩
        unfold classify_attacks
        simp only [List.mem_append, List.mem_map, List.mem_filter]
        exact ⟨_, Or.inl ⟨(s, d), ⟨hd, by simpa using hcond⟩, rfl⟩, rfl, rfl⟩
    · constructor
      · rintro ⟨a, ha, htype, hsrc⟩
        unfold classify_attacks at ha
        simp only [List.mem_append, List.mem_map, List.mem_filter] at ha
        rcases ha with ⟨p, ⟨hp, hcond⟩, rfl⟩ | ⟨p, ⟨hp, hcond⟩, rfl⟩
        · simp at htype
        · subst hsrc
          exact ⟨p.2, by simpa using hp, by simpa using hcond⟩
      · rintro ⟨d, hd, hcond⟩
        unfold classify_attacks
        simp only [List.mem_append, List.mem_map, List.mem_filter]
        exact ⟨_, Or.inr ⟨(s, d), ⟨hd, by simpa using hcond⟩, rfl⟩, rfl, rfl⟩
  · intro a ha htype
    unfold classify_attacks at ha
    simp only [List.mem_append, List.mem_map, List.mem_filter] at ha
    rcases ha with ⟨p, ⟨hp, hcond⟩, rfl⟩ | ⟨p, ⟨hp, hcond⟩, rfl⟩
    · exact ⟨p.2, by simpa using hp, by simpa using hcond, rfl⟩
    · simp at htype
  · intro a ha htype
    unfold classify_attacks at ha
    simp only [List.mem_append, List.mem_map, List.mem_filter] at ha
    rcases ha with ⟨p, ⟨hp, hcond⟩, rfl⟩ | ⟨p, ⟨hp, hcond⟩, rfl⟩
    · simp at htype
    · exact ⟨p.2, by simpa using hp, by simpa using hcond, rfl⟩

theorem orchestrator_attack_shape_witness :
    ∃ a ∈ classify_attacks
        ⟨60, 1, 1, none, [("1.2.3.4", 60)], [], [("1.2.3.4", ⟨false, 60, 7⟩)]⟩,
      a.type = "brute_force" ∧ a.source_ip = "1.2.3.4" := by
  have h := orchestrator_attack_shape
    ⟨60, 1, 1, none, [("1.2.3.4", 60)], [], [("1.2.3.4", ⟨false, 60, 7⟩)]⟩
    (by decide)
  exact ((h.2.2.2.1 "1.2.3.4").1).mpr ⟨⟨false, 60, 7⟩, by decide, by decide⟩

/-! ## Threat synthesis (C4) -/

/-- C4 counterexample: two attacks from one source of the SAME kind
(one distinct attack kind only) still yield a persistent threat, so
the persistent rule counts attack entries, not distinct kinds. -/
theorem threat_synthesis_distinct_kinds_counterexample :
    (∃ t ∈ analyze_threats [cxAttackA, cxAttackB] [], t.type = "persistent_threat") ∧
    firstSeen ([cxAttackA, cxAttackB].map (fun a => a.type)) = ["brute_force"] := by
  refine ⟨?_, by decide⟩
  decide

/-- C4 amended: every attack of severity high becomes a standalone
critical immediate Threat (in encounter order), every source with
MORE THAN ONE ATTACK ENTRY (not: more than one distinct attack kind)
becomes a persistent Threat of severity high, and all immediate
threats precede all persistent threats, each group preserving
encounter order. -/
theorem threat_synthesis_amended :
    ∀ (attacks : List Attack) (anomalies : List Anomaly),
      ∃ imm pers, analyze_threats attacks anomalies = imm ++ pers ∧
        imm = (attacks.filter (fun a => a.severity = "high")).map (fun a =>
          { severity := "critical"
            type := "immediate_threat"
            source := a.source_ip
            business_impact := assess_business_impact a
            recommended_actions := get_recommended_actions a
            attack_types := [] }) ∧
        (∀ t ∈ imm, t.severity = "critical" ∧ t.type = "immediate_threat") ∧
        (∀ t ∈ pers, t.severity = "high" ∧ t.type = "persistent_threat") ∧
        pers.map (fun t => t.source) =
          (firstSeen (attacks.map (fun a => a.source_ip))).filter
            (fun s => 1 < (attacks.filter (fun a => a.source_ip = s)).length) ∧
        (∀ s : String, (∃ t ∈ pers, t.source = s) ↔
            1 < (attacks.filter (fun a => a.source_ip = s)).length) := by
  intro attacks anomalies
  refine ⟨_, _, rfl, rfl, ?_, ?_, ?_, ?_⟩
  · intro t ht
    simp only [List.mem_map] at ht
    obtain ⟨a, ha, rfl⟩ := ht
    exact ⟨rfl, rfl⟩
  · intro t ht
    simp only [List.mem_map] at ht
    obtain ⟨ip, hip, rfl⟩ := ht
    exact ⟨rfl, rfl⟩
  · rw [List.map_map]
    exact List.map_id _
  · intro s
    constructor
    · rintro ⟨t, ht, rfl⟩
      simp only [List.mem_map] at ht
      obtain ⟨ip, hip, rfl⟩ := ht
      rw [List.mem_filter] at hip
      simpa using hip.2
    · intro hcond
      have hex : ∃ a ∈ attacks, a.source_ip = s := by
        by_contra hno
        push_neg at hno
        have hnil : attacks.filter (fun a => a.source_ip = s) = [] := by
          rw [List.filter_eq_nil_iff]
          intro a ha
          simpa using hno a ha
        rw [hnil] at hcond
        simp at hcond
      obtain ⟨a, ha, rfl⟩ := hex
      refine ⟨{ severity := "high"
                type := "persistent_threat"
                source := a.source_ip
                business_impact := "High - Targeted attack likely"
                recommended_actions :=
                  ["Block IP immediately", "Review security policies",
                   "Monitor related IPs"]
                attack_types :=
                  (attacks.filter (fun x => x.source_ip = a.source_ip)).map
                    (fun x => x.type) }, ?_, rfl⟩
      simp only [List.mem_map]
      refine ⟨a.source_ip, ?_, rfl⟩
      rw [List.mem_filter]
      refine ⟨(mem_firstSeen _ _).2 (List.mem_map.2 ⟨a, ha, rfl⟩), by simpa using hcond⟩

theorem threat_synthesis_amended_witness :
    ∃ t ∈ analyze_threats [cxAttackA, cxAttackB] [], t.source = "10.0.0.9" := by
  obtain ⟨imm, pers, heq, _himm, _h1, _h2, _h3, hiff⟩ :=
    threat_synthesis_amended [cxAttackA, cxAttackB] []
  obtain ⟨t, ht, hts⟩ := (hiff "10.0.0.9").mpr (by decide)
  exact ⟨t, by rw [heq]; exact List.mem_append_right _ ht, hts⟩

/-! ## Rule-stage classifier lemmas (C2) -/

theorem bestOf_cons (p : String × ℚ) (l : List (String × ℚ)) :
    bestOf (p :: l) = if (bestOf l).2 ≤ p.2 ∧ 0 < p.2 then p else bestOf l := rfl

theorem bestOf_nonneg : ∀ l : List (String × ℚ), 0 ≤ (bestOf l).2 := by
  intro l
  induction l with
  | nil => exact le_rfl
  | cons p rest ih =>
      rw [bestOf_cons]
      split_ifs with hc
      · exact le_of_lt hc.2
      · exact ih

theorem bestOf_eq_default_of_nonpos :
    ∀ l : List (String × ℚ), (bestOf l).2 ≤ 0 → bestOf l = ("normal", 0) := by
  intro l
  induction l with
  | nil => intro _; rfl
  | cons p rest ih =>
      rw [bestOf_cons]
      split_ifs with hc
      · intro hle
        exact absurd hc.2 (not_lt.2 hle)
      · exact ih

theorem bestOf_le : ∀ l : List (String × ℚ), ∀ p ∈ l, p.2 ≤ (bestOf l).2 := by
  intro l
  induction l with
  | nil => intro p hp; simp at hp
  | cons q rest ih =>
      intro p hp
      rw [bestOf_cons]
      rcases List.mem_cons.1 hp with rfl | hp
      · split_ifs with hc
        · exact le_rfl
        · push_neg at hc
          by_cases h1 : (bestOf rest).2 ≤ p.2
          · exact le_trans (hc h1) (bestOf_nonneg rest)
          · exact le_of_lt (not_le.1 h1)
      · split_ifs with hc
        · exact le_trans (ih p hp) hc.1
        · exact ih p hp

theorem rule_step_eq (msg : List Char) (port : Nat) (acc : String × ℚ)
    (hacc : 0 ≤ acc.2) (sig : String × List (List String)) :
    ruleStep msg port acc sig =
      if acc.2 < kindConfidence sig.1 sig.2 msg port
      then (sig.1, kindConfidence sig.1 sig.2 msg port) else acc := by
  unfold ruleStep kindConfidence
  dsimp only
  by_cases hm : mcount sig.2 msg = 0
  · rw [hm]
    rw [if_neg (lt_irrefl 0), if_pos rfl, if_neg (not_lt.2 hacc)]
  · have hm' : 0 < mcount sig.2 msg := Nat.pos_of_ne_zero hm
    rw [if_pos hm', if_neg hm]
    have hchain :
        (if sig.1 = "web_attack" ∧ port ∈ [80, 443, 8080] then
          min (9/10) ((mcount sig.2 msg : ℚ) / (sig.2.length : ℚ) + 3/10) + 1/10
        else if sig.1 = "brute_force" ∧ port ∈ [22, 21, 3389] then
          min (9/10) ((mcount sig.2 msg : ℚ) / (sig.2.length : ℚ) + 3/10) + 1/10
        else if sig.1 = "port_scan" ∧ 1 ≤ port ∧ port < 1024 then
          min (9/10) ((mcount sig.2 msg : ℚ) / (sig.2.length : ℚ) + 3/10) + 1/20
        else min (9/10) ((mcount sig.2 msg : ℚ) / (sig.2.length : ℚ) + 3/10)) =
        min (9/10) ((mcount sig.2 msg : ℚ) / (sig.2.length : ℚ) + 3/10) +
        (if sig.1 = "web_attack" ∧ port ∈ [80, 443, 8080] then (1 : ℚ)/10
        else if sig.1 = "brute_force" ∧ port ∈ [22, 21, 3389] then 1/10
        else if sig.1 = "port_scan" ∧ 1 ≤ port ∧ port < 1024 then 1/20
        else 0) := by
      split_ifs <;> ring
    rw [hchain]

theorem rule_foldl_eq_bestOf (msg : List Char) (port : Nat) :
    ∀ (sigs : List (String × List (List String))) (acc : String × ℚ), 0 ≤ acc.2 →
      sigs.foldl (ruleStep msg port) acc =
        if acc.2 <
            (bestOf (sigs.map (fun sig =>
              (sig.1, kindConfidence sig.1 sig.2 msg port)))).2
        then bestOf (sigs.map (fun sig => (sig.1, kindConfidence sig.1 sig.2 msg port)))
        else acc := by
  intro sigs
  induction sigs with
  | nil =>
      intro acc hacc
      simp only [List.foldl_nil, List.map_nil]
      rw [show bestOf ([] : List (String × ℚ)) = ("normal", 0) from rfl]
      rw [if_neg (not_lt.2 hacc)]
  | cons sig sigs ih =>
      intro acc hacc
      rw [List.foldl_cons, rule_step_eq msg port acc hacc sig, List.map_cons,
        bestOf_cons]
      dsimp only
      by_cases hlt : acc.2 < kindConfidence sig.1 sig.2 msg port
      · have hc : 0 < kindConfidence sig.1 sig.2 msg port := lt_of_le_of_lt hacc hlt
        rw [if_pos hlt, ih _ (le_of_lt hc)]
        dsimp only
        by_cases hbc :
            (bestOf (sigs.map (fun sig => (sig.1, kindConfidence sig.1 sig.2 msg port)))).2 ≤
              kindConfidence sig.1 sig.2 msg port
        · rw [if_pos (And.intro hbc hc), if_neg (not_lt.2 hbc)]
          dsimp only
          rw [if_pos hlt]
        · have hbc' := not_le.1 hbc
          rw [if_neg (show ¬(_ ∧ _) from fun h => hbc h.1), if_pos hbc',
            if_pos (lt_trans hlt hbc')]
      · rw [if_neg hlt, ih _ hacc]
        by_cases hcond :
            (bestOf (sigs.map (fun sig => (sig.1, kindConfidence sig.1 sig.2 msg port)))).2 ≤
              kindConfidence sig.1 sig.2 msg port ∧
            0 < kindConfidence sig.1 sig.2 msg port
        · rw [if_pos hcond]
          dsimp only
          rw [if_neg hlt,
            if_neg (not_lt.2 (le_trans hcond.1 (not_lt.1 hlt)))]
        · rw [if_neg hcond]

/-- C2: the rule stage iterates the kinds in the fixed order
brute_force, port_scan, web_attack, ddos, malware; the per-kind
confidence is `kindConfidence` (min(0.9, matched/total + 0.3), plus
the kind-specific port boost, clamped to 1, and 0 with no match);
the returned result is the leftmost kind attaining the maximal
positive confidence — i.e. ties go to the earlier kind — and
"normal" with confidence 0 when no kind matches. -/
theorem rule_stage_argmax :
    ∀ e : Event,
      rule_based_classification e =
        ⟨(bestOf (ruleKindTable e)).1, (bestOf (ruleKindTable e)).2, "rule_based"⟩ ∧
      (ruleKindTable e).map Prod.fst =
        ["brute_force", "port_scan", "web_attack", "ddos", "malware"] ∧
      ∀ p ∈ ruleKindTable e, p.2 ≤ (rule_based_classification e).confidence := by
  intro e
  have hmain : rule_based_classification e =
      ⟨(bestOf (ruleKindTable e)).1, (bestOf (ruleKindTable e)).2, "rule_based"⟩ := by
    unfold rule_based_classification ruleKindTable
    dsimp only
    rw [rule_foldl_eq_bestOf (lowerChars (e.message.getD "")) (e.dst_port.getD 0)
      attack_signatures ("normal", 0) le_rfl]
    by_cases hpos : (("normal", (0 : ℚ)) : String × ℚ).2 <
        (bestOf (attack_signatures.map (fun sig =>
          (sig.1, kindConfidence sig.1 sig.2 (lowerChars (e.message.getD ""))
            (e.dst_port.getD 0))))).2
    · rw [if_pos hpos]
    · rw [if_neg hpos,
        bestOf_eq_default_of_nonpos _ (not_lt.1 hpos)]
  refine ⟨hmain, rfl, ?_⟩
  intro p hp
  rw [hmain]
  exact bestOf_le _ p hp

theorem rule_stage_argmax_witness :
    ("malware",
      kindConfidence "malware" malware_patterns (lowerChars "") 0).2 ≤
      (rule_based_classification ⟨none, none, none, none, none⟩).confidence := by
  have h := rule_stage_argmax ⟨none, none, none, none, none⟩
  exact h.2.2 _ (List.mem_map.2 ⟨("malware", malware_patterns), by decide, rfl⟩)

/-! ## Stage selection in classify_attack (C3) -/

/-- C3: the statistical backup stage runs only when the rule-stage
confidence is at most 0.7 — above 0.7 the result is the rule result
and does not depend on the backup stage at all — and when both
stages run, the backup result is returned only on strictly higher
confidence, the rule result on a tie or below. -/
theorem classify_attack_stage_selection :
    ∀ (is_trained : Bool) (ml ml2 : Event → ClassResult) (e : Event),
      (7/10 < (rule_based_classification e).confidence →
        classify_attack is_trained ml e = rule_based_classification e ∧
        classify_attack is_trained ml e = classify_attack is_trained ml2 e) ∧
      ((rule_based_classification e).confidence ≤ 7/10 → is_trained = true →
        classify_attack is_trained ml e =
          (if (rule_based_classification e).confidence < (ml e).confidence
           then ml e else rule_based_classification e)) := by
  intro is_trained ml ml2 e
  constructor
  · intro hgt
    unfold classify_attack
    rw [if_pos hgt, if_pos hgt]
    exact ⟨rfl, rfl⟩
  · rintro hle rfl
    unfold classify_attack
    rw [if_neg (not_lt.2 hle), if_pos rfl]

theorem classify_attack_stage_selection_witness :
    classify_attack true mlStub evDdos = rule_based_classification evDdos ∧
    classify_attack true mlStub evDdos = classify_attack true mlStub2 evDdos ∧
    classify_attack true mlStub evEmpty = mlStub evEmpty := by
  have hc1 : kindConfidence "brute_force" brute_force_patterns
      (lowerChars (evDdos.message.getD "")) (evDdos.dst_port.getD 0) = 0 := by
    unfold kindConfidence
    rw [show mcount brute_force_patterns (lowerChars (evDdos.message.getD "")) = 0 from
      by decide]
    rw [if_pos rfl]
  have hc2 : kindConfidence "port_scan" port_scan_patterns
      (lowerChars (evDdos.message.getD "")) (evDdos.dst_port.getD 0) = 0 := by
    unfold kindConfidence
    rw [show mcount port_scan_patterns (lowerChars (evDdos.message.getD "")) = 0 from
      by decide]
    rw [if_pos rfl]
  have hc3 : kindConfidence "web_attack" web_attack_patterns
      (lowerChars (evDdos.message.getD "")) (evDdos.dst_port.getD 0) = 0 := by
    unfold kindConfidence
    rw [show mcount web_attack_patterns (lowerChars (evDdos.message.getD "")) = 0 from
      by decide]
    rw [if_pos rfl]
  have hc4 : kindConfidence "ddos" ddos_patterns
      (lowerChars (evDdos.message.getD "")) (evDdos.dst_port.getD 0) = 4/5 := by
    unfold kindConfidence
    rw [show mcount ddos_patterns (lowerChars (evDdos.message.getD "")) = 2 from
      by decide]
    rw [if_neg (by decide)]
    rw [if_neg (by decide), if_neg (by decide), if_neg (by decide)]
    rw [show ddos_patterns.length = 4 from rfl]
    norm_num [min_def]
  have hc5 : kindConfidence "malware" malware_patterns
      (lowerChars (evDdos.message.getD "")) (evDdos.dst_port.getD 0) = 0 := by
    unfold kindConfidence
    rw [show mcount malware_patterns (lowerChars (evDdos.message.getD "")) = 0 from
      by decide]
    rw [if_pos rfl]
  have hr : rule_based_classification evDdos = ⟨"ddos", 4/5, "rule_based"⟩ := by
    unfold rule_based_classification
    dsimp only
    rw [rule_foldl_eq_bestOf (lowerChars (evDdos.message.getD ""))
      (evDdos.dst_port.getD 0) attack_signatures ("normal", 0) le_rfl]
    rw [show attack_signatures =
      [("brute_force", brute_force_patterns), ("port_scan", port_scan_patterns),
       ("web_attack", web_attack_patterns), ("ddos", ddos_patterns),
       ("malware", malware_patterns)] from rfl]
    simp only [List.map_cons, List.map_nil]
    rw [hc1, hc2, hc3, hc4, hc5]
    norm_num [bestOf]
  have he : rule_based_classification evEmpty = ⟨"normal", 0, "rule_based"⟩ := rfl
  have hb := (classify_attack_stage_selection true mlStub mlStub2 evDdos).1
    (by rw [hr]; norm_num)
  have h2 := (classify_attack_stage_selection true mlStub mlStub2 evEmpty).2
    (by rw [he]; norm_num) rfl
  refine ⟨hb.1, hb.2, ?_⟩
  rw [h2, he]
  rw [if_pos (by norm_num [mlStub])]

/-! ## Scenario A evaluation (C1) -/

theorem scenarioA_patterns_eval :
    (extract_features known_malicious_ips scenarioA).patterns =
      [("10.0.0.1", ⟨false, 60, 1⟩)] := by
  decide

theorem scenarioA_attacks_eval :
    classify_attacks (extract_features known_malicious_ips scenarioA) =
      [⟨"brute_force", "high", "10.0.0.1", 3/5⟩] := by
  unfold classify_attacks
  dsimp only
  rw [scenarioA_patterns_eval]
  simp only [List.filter_cons, List.filter_nil, List.map_cons, List.map_nil]
  norm_num [min_def]

theorem scenarioA_temporal_eval :
    AnomalyDetector.detect_temporal scenarioA = [] := by
  unfold AnomalyDetector.detect_temporal scenarioA
  rw [filterMap_replicate_eq (fun e => e.timestamp) evScenA 0 rfl 60]
  rw [show List.replicate 60 (0 : ℚ) = 0 :: List.replicate 59 0 from rfl]
  dsimp only
  rw [foldl_max_replicate, foldl_min_replicate]
  rw [if_neg ?hng]
  case hng =>
    rintro ⟨_h1, h2⟩
    rw [List.length_replicate] at h2
    exact absurd h2 (by norm_num)

theorem scenarioA_ports_eval :
    AnomalyDetector.detect_ports scenarioA = [] := by
  decide

theorem scenarioA_spikes_eval :
    AnomalyDetector.detect_spikes scenarioA =
      [⟨"IP Frequency Spike", some "10.0.0.1", "medium", 2/5⟩] := by
  unfold AnomalyDetector.detect_spikes
  rw [show valueCounts (scenarioA.filterMap (fun e => e.src_ip)) =
    [("10.0.0.1", 60)] from by decide]
  simp only [List.filterMap_cons, List.filterMap_nil]
  norm_num [min_def]

theorem scenarioA_detect_eval :
    AnomalyDetector.detect scenarioA =
      [⟨"IP Frequency Spike", some "10.0.0.1", "medium", 2/5⟩] := by
  unfold AnomalyDetector.detect
  rw [scenarioA_temporal_eval, scenarioA_ports_eval, scenarioA_spikes_eval]
  rfl

theorem scenarioA_threats_eval :
    analyze_threats [⟨"brute_force", "high", "10.0.0.1", 3/5⟩]
        [⟨"IP Frequency Spike", some "10.0.0.1", "medium", 2/5⟩] =
      [⟨"critical", "immediate_threat", "10.0.0.1",
        "Medium - Potential service disruption and credential compromise",
        ["Change default passwords immediately", "Enable account lockout policies",
         "Consider IP blocking", "Review access logs"], []⟩] := by
  decide

/-- C1 counterexample: at Scenario A the classification confidence is
0.6 = min(0.9, 60/100), which is NOT at least 0.7; the per-event
rule stage classifies "normal" with confidence 0 (the message
"Failed password for root" matches no brute-force signature); and
the frequency-spike anomaly has severity "medium", not "high"
(severity high needs a count above 100, not above 50). -/
theorem scenarioA_counterexample :
    ((classify_attacks (extract_features known_malicious_ips scenarioA)).map
        (fun a => a.confidence) = [3/5] ∧ (3 : ℚ)/5 < 7/10) ∧
    ((AnomalyDetector.detect scenarioA).map (fun a => (a.type, a.severity)) =
      [("IP Frequency Spike", "medium")]) ∧
    rule_based_classification evScenA = ⟨"normal", 0, "rule_based"⟩ := by
  refine ⟨⟨?_, by norm_num⟩, ?_, rfl⟩
  · rw [scenarioA_attacks_eval]
    rfl
  · rw [scenarioA_detect_eval]
    rfl

/-- C1 amended: for Scenario A the analysis classifies one
brute_force attack of severity high with confidence exactly 0.6
(below 0.7), emits one frequency-spike anomaly of severity medium
(count 60 is above 50 but not above 100) with confidence 0.4, and
produces exactly one critical immediate Threat. -/
theorem scenarioA_amended :
    classify_attacks (extract_features known_malicious_ips scenarioA) =
      [⟨"brute_force", "high", "10.0.0.1", 3/5⟩] ∧
    AnomalyDetector.detect scenarioA =
      [⟨"IP Frequency Spike", some "10.0.0.1", "medium", 2/5⟩] ∧
    analyze_threats (classify_attacks (extract_features known_malicious_ips scenarioA))
        (AnomalyDetector.detect scenarioA) =
      [⟨"critical", "immediate_threat", "10.0.0.1",
        "Medium - Potential service disruption and credential compromise",
        ["Change default passwords immediately", "Enable account lockout policies",
         "Consider IP blocking", "Review access logs"], []⟩] := by
  refine ⟨scenarioA_attacks_eval, scenarioA_detect_eval, ?_⟩
  rw [scenarioA_attacks_eval, scenarioA_detect_eval]
  exact scenarioA_threats_eval

end Honeypot
